import Mathlib

/-!
# A model of the deep-shot sandboxed code-execution subsystem

This file gives a shallow embedding, in Lean, of the repository's
`app/services/code_executor.py` (the AST validator and the sandboxed runner)
together with the result schema of `app/models/schemas.py`, and proves
properties of that embedding.

Modelling conventions:

* Candidate programs are represented by their syntax tree (`PyStmt`, `PyExpr`),
  covering the Python fragment the executor's contract is about: imports,
  from-imports, expression statements, single-name assignments, and
  zero-argument function definitions whose body is a single `return`
  expression.  A source text is represented by its parse outcome
  (`Candidate.parse`): either the module body or the `SyntaxError` message
  that `ast.parse` raises.
* Python exceptions are data (`PyExc`); a computation that can raise is an
  `Except PyExc` value.  A subsystem-boundary function returning `.ok`
  models a call that returns normally; `.error` models an exception
  propagating to the caller.
* Dynamic semantics of the candidate program are given by a fuelled
  evaluator over the same fragment; the fuel models CPython's recursion
  limit.  Library calls, attribute access on library objects and the safe
  builtins are outside the modelled fragment: evaluating them raises, which
  the runner treats like any other candidate-program exception.
* Wall-clock time is modelled by one abstract quantity `execTime`: the
  number of seconds the submitted worker takes to finish.  `future.result`
  with a timeout raises `FuturesTimeoutError` exactly when the worker takes
  longer than the timeout, and `ThreadPoolExecutor.__exit__` (which the
  `with` statement runs before `execute` can return) calls
  `shutdown(wait=True)`, documented CPython behaviour that blocks until the
  submitted task has finished.
-/

namespace DeepShot

mutual

/-- Python runtime values, as far as the executor's contract inspects them:
the JSON scalar/container shapes that `json.dumps` accepts, plus function
objects (`funcV`, carrying the body of a zero-argument function) and module
objects, which it rejects.  Python floats are represented exactly as
rationals; no claim depends on rounding. -/
inductive PyValue where
  | noneV : PyValue
  | boolV : Bool → PyValue
  | intV : Int → PyValue
  | floatV : Rat → PyValue
  | strV : String → PyValue
  | listV : List PyValue → PyValue
  | dictV : List (String × PyValue) → PyValue
  | funcV : PyExpr → PyValue
  | moduleV : String → PyValue

/-- Python expressions of the modelled fragment (`ast.Name`, `ast.Constant`,
`ast.Attribute`, `ast.Call`, `ast.List`, `ast.Dict` with string keys, and
`ast.BinOp` with the `/` operator). -/
inductive PyExpr where
  | nameE : String → PyExpr
  | constE : PyValue → PyExpr
  | attributeE : PyExpr → String → PyExpr
  | callE : PyExpr → List PyExpr → PyExpr
  | listE : List PyExpr → PyExpr
  | dictE : List (String × PyExpr) → PyExpr
  | divE : PyExpr → PyExpr → PyExpr

end

/-- Python statements of the modelled fragment.  `importS` is `ast.Import`
(the dotted names of its aliases); `importF` is `ast.ImportFrom`
(`node.module`, which is `none` for a purely relative import such as
`from . import os`, and the imported names); `functionDef name body` is
`def name(): return body`. -/
inductive PyStmt where
  | importS : List String → PyStmt
  | importF : Option String → List String → PyStmt
  | exprS : PyExpr → PyStmt
  | assign : String → PyExpr → PyStmt
  | functionDef : String → PyExpr → PyStmt

/-- `ALLOWED_IMPORTS` of code_executor.py. -/
def ALLOWED_IMPORTS : List String :=
  ["nflreadpy", "nfl", "polars", "pl", "datetime", "math", "statistics", "json", "re"]

/-- `FORBIDDEN_CALLS` of code_executor.py. -/
def FORBIDDEN_CALLS : List String :=
  ["eval", "exec", "open", "__import__", "compile", "globals", "locals",
   "vars", "dir", "getattr", "setattr", "delattr", "hasattr", "input", "breakpoint"]

/-- `FORBIDDEN_ATTRIBUTES` of code_executor.py. -/
def FORBIDDEN_ATTRIBUTES : List String :=
  ["__builtins__", "__code__", "__globals__", "__subclasses__", "__bases__",
   "__mro__", "__class__"]

/-- The names of `SAFE_BUILTINS` of code_executor.py.  The builtin functions
themselves are outside the modelled evaluation fragment; the runner model
only needs the key set. -/
def SAFE_BUILTINS : List String :=
  ["abs", "all", "any", "bool", "dict", "enumerate", "filter", "float",
   "frozenset", "int", "isinstance", "issubclass", "iter", "len", "list",
   "map", "max", "min", "next", "print", "range", "repr", "reversed",
   "round", "set", "slice", "sorted", "str", "sum", "tuple", "type", "zip",
   "True", "False", "None"]

/-- `name.split(".")[0]`: the text of `name` before its first `.`. -/
def baseModule (name : String) : String :=
  String.mk (name.data.takeWhile (fun c => c ≠ '.'))

mutual

/-- `json.dumps(v)` succeeds: `v` is a tree of JSON-compatible values with no
opaque objects (function and module objects make it raise `TypeError`). -/
def jsonSerializable : PyValue → Bool
  | .noneV => true
  | .boolV _ => true
  | .intV _ => true
  | .floatV _ => true
  | .strV _ => true
  | .listV xs => jsonSerializableL xs
  | .dictV kvs => jsonSerializableKV kvs
  | .funcV _ => false
  | .moduleV _ => false

/-- `jsonSerializable` on every element of a list. -/
def jsonSerializableL : List PyValue → Bool
  | [] => true
  | v :: vs => jsonSerializable v && jsonSerializableL vs

/-- `jsonSerializable` on every value of a dict. -/
def jsonSerializableKV : List (String × PyValue) → Bool
  | [] => true
  | (_, v) :: vs => jsonSerializable v && jsonSerializableKV vs

end

/-- The check of `ASTValidator.visit_Call` on the `func` child of a call
node: a bare name or an attribute whose name is in `FORBIDDEN_CALLS` is
reported.  (The check is syntactic; other call targets pass.) -/
def callFuncErrors (func : PyExpr) : List String :=
  match func with
  | .nameE id =>
      if id ∈ FORBIDDEN_CALLS then ["Call to '" ++ id ++ "' is not allowed"] else []
  | .attributeE _ attr =>
      if attr ∈ FORBIDDEN_CALLS then ["Call to '" ++ attr ++ "' is not allowed"] else []
  | _ => []

/-- The loop of `ASTValidator.visit_Import`: one diagnostic per alias whose
top-level module is not allow-listed. -/
def importErrors : List String → List String
  | [] => []
  | nm :: rest =>
      (if baseModule nm ∈ ALLOWED_IMPORTS then []
       else ["Import of '" ++ nm ++ "' is not allowed"]) ++ importErrors rest

/-- The check of `ASTValidator.visit_ImportFrom`: guarded by
`if node.module:`, so a missing (or empty, which Python reads as falsy)
module name is not checked at all. -/
def importFromErrors (module : Option String) : List String :=
  match module with
  | none => []
  | some m =>
      if m = "" then []
      else if baseModule m ∈ ALLOWED_IMPORTS then []
      else ["Import from '" ++ m ++ "' is not allowed"]

mutual

/-- `ASTValidator` on an expression: the diagnostics its `visit` appends
while traversing the node, in traversal order (each node's own check first —
`visit_Call` and `visit_Attribute` append before `generic_visit` — then its
children in field order). -/
def visitExpr : PyExpr → List String
  | .nameE _ => []
  | .constE _ => []
  | .attributeE val attr =>
      (if attr ∈ FORBIDDEN_ATTRIBUTES then ["Access to '" ++ attr ++ "' is not allowed"]
       else []) ++ visitExpr val
  | .callE f args => callFuncErrors f ++ visitExpr f ++ visitExprL args
  | .listE elts => visitExprL elts
  | .dictE entries => visitExprKV entries
  | .divE a b => visitExpr a ++ visitExpr b

/-- `ASTValidator` on a list of child expressions, left to right. -/
def visitExprL : List PyExpr → List String
  | [] => []
  | e :: rest => visitExpr e ++ visitExprL rest

/-- `ASTValidator` on the values of a dict display, left to right (the keys
of the modelled fragment are string constants, which produce nothing). -/
def visitExprKV : List (String × PyExpr) → List String
  | [] => []
  | (_, e) :: rest => visitExpr e ++ visitExprKV rest

end

/-- `ASTValidator` on a statement. -/
def visitStmt : PyStmt → List String
  | .importS names => importErrors names
  | .importF module _ => importFromErrors module
  | .exprS e => visitExpr e
  | .assign _ e => visitExpr e
  | .functionDef _ body => visitExpr body

/-- `ASTValidator` on a module body: `validator.visit(tree)` visits every
statement in order and accumulates `validator.errors`. -/
def visitModule : List PyStmt → List String
  | [] => []
  | s :: rest => visitStmt s ++ visitModule rest

/-- Python exceptions, as far as the executor distinguishes them:
`CodeValidationError` and `CodeExecutionError` of schemas.py,
`concurrent.futures.TimeoutError`, and any other `Exception` carrying
`str(e)`. -/
inductive PyExc where
  | codeValidationError : String → PyExc
  | codeExecutionError : String → Option String → PyExc
  | futuresTimeoutError : PyExc
  | exc : String → PyExc

/-- A candidate source text, represented by its parse outcome:
`ast.parse` either returns the module body or raises a `SyntaxError`
(carried here as its message). -/
structure Candidate where
  parse : Except String (List PyStmt)

/-- `CodeExecutor.validate_code`: parse, turning a `SyntaxError` into a
`CodeValidationError`; then run the `ASTValidator` and raise a
`CodeValidationError` joining all collected diagnostics if there are any.
(The source returns `None` and `execute` passes the source text on to the
worker, which re-parses it inside `exec`; the model hands the parsed module
body over directly instead.) -/
def validate_code (c : Candidate) : Except PyExc (List PyStmt) :=
  match c.parse with
  | .error e => .error (.codeValidationError ("Syntax error in code: " ++ e))
  | .ok tree =>
      let errors := visitModule tree
      if errors.isEmpty then .ok tree
      else
        .error (.codeValidationError
          ("Code validation failed:\n"
            ++ String.intercalate "\n" (errors.map (fun e => "  - " ++ e))))

/-- The globals dict of the exec'd candidate program. -/
abbrev Env := List (String × PyValue)

/-- Dictionary lookup (the most recent binding of a name wins). -/
def envLookup : Env → String → Option PyValue
  | [], _ => none
  | (k, v) :: rest, name => if k = name then some v else envLookup rest name

/-- Dictionary update. -/
def envSet (env : Env) (k : String) (v : PyValue) : Env := (k, v) :: env

/-- `_safe_import`: the `__import__` replacement installed in the sandbox
builtins; it raises `ImportError` unless the top-level module name is
allow-listed, and otherwise returns the module. -/
def _safe_import (name : String) : Except String PyValue :=
  if baseModule name ∈ ALLOWED_IMPORTS then .ok (.moduleV (baseModule name))
  else .error ("Import of '" ++ name ++ "' is not allowed")

/-- Whether a Python value supports true division (`int`, `float` and `bool`
operands), and its numeric value if so. -/
def numVal : PyValue → Option Rat
  | .intV n => some (n : Rat)
  | .floatV q => some q
  | .boolV b => some (if b then 1 else 0)
  | _ => none

mutual

/-- The evaluator for the modelled expression fragment, with a fuel budget
standing for CPython's recursion limit.  A raised exception is `.error` with
`str(e)`.  Name lookup reads the candidate's globals (builtin functions are
outside the modelled fragment, so a name bound by neither the program nor the
installed modules raises `NameError`); calling a value is modelled for the
candidate's own zero-argument functions, every non-function value raising
`TypeError` as in Python; attribute access reaches library objects only, and
is treated as an opaque library call outside the fragment, modelled as a
raising operation. -/
def evalExpr : Nat → Env → PyExpr → Except String PyValue
  | 0, _, _ => .error "maximum recursion depth exceeded"
  | fuel + 1, env, e =>
    match e with
    | .nameE id =>
      match envLookup env id with
      | some v => .ok v
      | none => .error ("name '" ++ id ++ "' is not defined")
    | .constE v => .ok v
    | .attributeE _ attr =>
      .error ("attribute access '" ++ attr ++ "' is outside the modelled fragment")
    | .callE f args =>
      match evalExpr fuel env f with
      | .error m => .error m
      | .ok (.funcV body) =>
        match args with
        | [] => evalExpr fuel env body
        | _ :: _ => .error "run() takes 0 positional arguments but 1 was given"
      | .ok _ => .error "object is not callable"
    | .listE elts =>
      match evalExprL fuel env elts with
      | .error m => .error m
      | .ok vs => .ok (.listV vs)
    | .dictE entries =>
      match evalExprKV fuel env entries with
      | .error m => .error m
      | .ok kvs => .ok (.dictV kvs)
    | .divE a b =>
      match evalExpr fuel env a with
      | .error m => .error m
      | .ok va =>
        match evalExpr fuel env b with
        | .error m => .error m
        | .ok vb =>
          match numVal va, numVal vb with
          | some x, some y =>
            if y = 0 then .error "division by zero" else .ok (.floatV (x / y))
          | _, _ => .error "unsupported operand type(s) for /"

/-- Left-to-right evaluation of the elements of a list display. -/
def evalExprL : Nat → Env → List PyExpr → Except String (List PyValue)
  | 0, _, _ => .error "maximum recursion depth exceeded"
  | _ + 1, _, [] => .ok []
  | fuel + 1, env, e :: rest =>
    match evalExpr fuel env e with
    | .error m => .error m
    | .ok v =>
      match evalExprL fuel env rest with
      | .error m => .error m
      | .ok vs => .ok (v :: vs)

/-- Left-to-right evaluation of the values of a dict display. -/
def evalExprKV : Nat → Env → List (String × PyExpr) → Except String (List (String × PyValue))
  | 0, _, _ => .error "maximum recursion depth exceeded"
  | _ + 1, _, [] => .ok []
  | fuel + 1, env, (k, e) :: rest =>
    match evalExpr fuel env e with
    | .error m => .error m
    | .ok v =>
      match evalExprKV fuel env rest with
      | .error m => .error m
      | .ok kvs => .ok ((k, v) :: kvs)

end

/-- The bindings a from-import statement makes: each imported name is bound
to the corresponding library object (opaque to the rest of the model). -/
def bindFromImports (env : Env) (module : String) : List String → Env
  | [] => env
  | nm :: rest => bindFromImports (envSet env nm (.moduleV (module ++ "." ++ nm))) module rest

/-- Executing the aliases of an `import` statement: `_safe_import` each dotted
name, binding the top-level module name on success and raising on failure. -/
def execImports (env : Env) : List String → Except String Env
  | [] => .ok env
  | nm :: rest =>
    match _safe_import nm with
    | .error m => .error m
    | .ok v => execImports (envSet env (baseModule nm) v) rest

/-- `exec(code, env)` over the modelled fragment: run the module body top to
bottom, threading the globals.  A from-import with a missing module calls
`_safe_import` with the empty string, as CPython passes `""` as the name of a
purely relative import (so `from . import os` raises `ImportError` inside
`_safe_import` at execution time, having passed validation). -/
def execStmts (recLimit : Nat) : Env → List PyStmt → Except String Env
  | env, [] => .ok env
  | env, s :: rest =>
    match s with
    | .importS names =>
      match execImports env names with
      | .error m => .error m
      | .ok env2 => execStmts recLimit env2 rest
    | .importF module names =>
      match _safe_import (module.getD "") with
      | .error m => .error m
      | .ok _ => execStmts recLimit (bindFromImports env (module.getD "") names) rest
    | .exprS e =>
      match evalExpr recLimit env e with
      | .error m => .error m
      | .ok _ => execStmts recLimit env rest
    | .assign target e =>
      match evalExpr recLimit env e with
      | .error m => .error m
      | .ok v => execStmts recLimit (envSet env target v) rest
    | .functionDef name body => execStmts recLimit (envSet env name (.funcV body)) rest

/-- `CodeExecutor._create_execution_environment`: a fresh globals dict binding
the allow-listed library modules.  (The builtins table — `SAFE_BUILTINS` plus
`_safe_import` as `__import__` — is installed under `__builtins__`; the
builtin functions themselves are outside the modelled evaluation fragment.) -/
def _create_execution_environment : Env :=
  [("nflreadpy", .moduleV "nflreadpy"), ("nfl", .moduleV "nflreadpy"),
   ("polars", .moduleV "polars"), ("pl", .moduleV "polars"),
   ("datetime", .moduleV "datetime"), ("math", .moduleV "math"),
   ("statistics", .moduleV "statistics"), ("json", .moduleV "json"),
   ("re", .moduleV "re")]

/-- `CodeExecutor._execute_code`, the body the worker thread runs: build a
fresh environment, exec the candidate, require a callable `run` in the
resulting globals (else `CodeExecutionError`), call it, and require the
returned value to be JSON-serializable (else `CodeExecutionError`); any
exception of the candidate itself propagates unchanged. -/
def _execute_code (recLimit : Nat) (tree : List PyStmt) : Except PyExc PyValue :=
  match execStmts recLimit _create_execution_environment tree with
  | .error m => .error (.exc m)
  | .ok env =>
    match envLookup env "run" with
    | some (.funcV body) =>
      match evalExpr recLimit env body with
      | .error m => .error (.exc m)
      | .ok result =>
        if jsonSerializable result then .ok result
        else .error (.codeExecutionError
          "run() must return JSON-serializable data. Got error: Object is not JSON serializable"
          none)
    | _ => .error (.codeExecutionError
        "Code must define a callable run() function with no arguments" none)

/-- `CodeExecutionResult` of schemas.py. -/
structure CodeExecutionResult where
  success : Bool
  data : Option PyValue := none
  error : Option String := none
  traceback : Option String := none

/-- `str(e)` of the pydantic `ValidationError` raised when a
`CodeExecutionResult` is constructed with a `data` payload that fits neither
arm of the declared `dict | None`. -/
def pydanticDataMessage : String :=
  "1 validation error for CodeExecutionResult\ndata\n  Input should be a valid dictionary"

/-- Whether a payload fits the declared type `dict | None` of the `data`
field of `CodeExecutionResult`. -/
def pydanticDataOk : PyValue → Bool
  | .dictV _ => true
  | .noneV => true
  | _ => false

/-- Constructing a `CodeExecutionResult` through pydantic: the `data` field is
declared `dict | None`, so construction succeeds for a mapping payload, for
`None` (stored as `None`), and for an absent payload, while any other payload
makes pydantic raise a `ValidationError` (an ordinary `Exception` carrying its
rendered message). -/
def CodeExecutionResult.build (success : Bool) (data : Option PyValue)
    (error traceback : Option String) : Except PyExc CodeExecutionResult :=
  match data with
  | none => .ok ⟨success, none, error, traceback⟩
  | some (.dictV kvs) => .ok ⟨success, some (.dictV kvs), error, traceback⟩
  | some .noneV => .ok ⟨success, none, error, traceback⟩
  | some _ => .error (.exc pydanticDataMessage)

/-- `future.result(timeout=self.timeout_seconds)`: raises
`concurrent.futures.TimeoutError` when the worker has not finished within the
timeout, and otherwise returns the worker's value or re-raises its
exception.  `execTime` is the wall-clock seconds the worker takes. -/
def futureResult (worker : Except PyExc PyValue) (execTime timeout_seconds : Nat) :
    Except PyExc PyValue :=
  if timeout_seconds < execTime then .error .futuresTimeoutError
  else worker

/-- The body of `execute`'s `with` block: submit `_execute_code`, wait for its
result, and build the success result; the `except FuturesTimeoutError` clause
turns a timeout into a failure result naming the timeout duration.  Any other
exception — the worker's, or the pydantic `ValidationError` raised while
building the success result — propagates out of the block. -/
def executeAttempt (recLimit : Nat) (tree : List PyStmt) (execTime timeout_seconds : Nat) :
    Except PyExc CodeExecutionResult :=
  match futureResult (_execute_code recLimit tree) execTime timeout_seconds with
  | .ok result => CodeExecutionResult.build true (some result) none none
  | .error .futuresTimeoutError =>
    .ok ⟨false, none,
      some ("Code execution timed out after " ++ toString timeout_seconds ++ " seconds"), none⟩
  | .error e => .error e

/-- `str(e)` of a modelled exception. -/
def excMessage : PyExc → String
  | .codeValidationError m => m
  | .codeExecutionError m _ => m
  | .futuresTimeoutError => ""
  | .exc m => m

/-- `traceback.format_exc()` as the generic handler renders it. -/
def format_exc (m : String) : String :=
  "Traceback (most recent call last):\n" ++ m

/-- `CodeExecutor.execute`.  `timeout_seconds` is the executor's configured
timeout, `recLimit` the interpreter's recursion budget, `execTime` the
wall-clock seconds the submitted worker takes.  `.ok r` models the call
returning the result `r` to the caller; `.error e` models the exception `e`
propagating past the subsystem boundary.  The first `try` catches only
`CodeValidationError`; in the second, `except CodeExecutionError` fills
`error` and `traceback` from the exception's fields, and the final
`except Exception` fills them from `str(e)` and `traceback.format_exc()`. -/
def execute (timeout_seconds recLimit : Nat) (c : Candidate) (execTime : Nat) :
    Except PyExc CodeExecutionResult :=
  match validate_code c with
  | .error (.codeValidationError m) => .ok ⟨false, none, some m, none⟩
  | .error e => .error e
  | .ok tree =>
    match executeAttempt recLimit tree execTime timeout_seconds with
    | .ok r => .ok r
    | .error (.codeExecutionError m tb) => .ok ⟨false, none, some m, tb⟩
    | .error e => .ok ⟨false, none, some (excMessage e), some (format_exc (excMessage e))⟩

/-- `"run" in env and callable(env["run"])`: the entry-point test of
`_execute_code` (of the modelled values, exactly the candidate's own function
objects are callable). -/
def runCallable (env : Env) : Bool :=
  match envLookup env "run" with
  | some (.funcV _) => true
  | _ => false

/-- When `execute` returns, on the wall clock, measured from its entry
(validation is modelled as instantaneous).  Once the worker has been
submitted, leaving the `with` block runs `ThreadPoolExecutor.__exit__`, which
calls `shutdown(wait=True)` — per the CPython documentation the context
manager does not exit until every submitted task is done executing — so every
return path of the second `try` gives the worker's full `execTime` on the
clock, the timed-out path included. -/
def executeReturnTime (c : Candidate) (execTime : Nat) : Nat :=
  match validate_code c with
  | .error _ => 0
  | .ok _ => execTime

/-! ## Theorems -/

/-- The only exception `validate_code` can raise is a `CodeValidationError`
(which `execute`'s first handler catches). -/
theorem validate_code_error_shape (c : Candidate) (e : PyExc)
    (h : validate_code c = .error e) : ∃ m, e = .codeValidationError m := by
  unfold validate_code at h
  rcases hp : c.parse with msg | tree <;> rw [hp] at h
  · exact ⟨_, (Except.error.inj h).symm⟩
  · dsimp only at h
    split at h
    · exact absurd h (by simp)
    · exact ⟨_, (Except.error.inj h).symm⟩

/-- C1.  For every source text (every parse outcome), every timeout, every
recursion budget and every worker duration, `execute` returns exactly one
`CodeExecutionResult` and no exception — from validation, the candidate
program, result construction or the timeout mechanism — propagates past the
subsystem boundary (the model's `.error` outcome never occurs). -/
theorem execute_never_raises (timeout_seconds recLimit : Nat) (c : Candidate)
    (execTime : Nat) : ∃ r, execute timeout_seconds recLimit c execTime = .ok r := by
  cases hv : validate_code c with
  | error e =>
    obtain ⟨m, rfl⟩ := validate_code_error_shape c e hv
    exact ⟨_, by unfold execute; rw [hv]⟩
  | ok tree =>
    cases ha : executeAttempt recLimit tree execTime timeout_seconds with
    | ok r => exact ⟨r, by unfold execute; rw [hv]; dsimp only; rw [ha]⟩
    | error e => cases e <;> exact ⟨_, by unfold execute; rw [hv]; dsimp only; rw [ha]⟩

/-- C3.  A parseable source with at least one violation makes `execute` fail
with `error` the concatenation of all diagnostics the one traversal found —
for every recursion budget and worker duration, i.e. without execution being
attempted — and the Scenario A program (`import os` / `eval('1')` /
`x.__globals__`) yields exactly the three expected diagnostics. -/
theorem validation_collects_all_diagnostics :
    (∀ (tree : List PyStmt) (timeout_seconds recLimit execTime : Nat),
        visitModule tree ≠ [] →
        execute timeout_seconds recLimit ⟨.ok tree⟩ execTime =
          .ok ⟨false, none,
            some ("Code validation failed:\n"
              ++ String.intercalate "\n" ((visitModule tree).map (fun e => "  - " ++ e))),
            none⟩) ∧
    visitModule [.importS ["os"],
        .exprS (.callE (.nameE "eval") [.constE (.strV "1")]),
        .exprS (.attributeE (.nameE "x") "__globals__")] =
      ["Import of 'os' is not allowed", "Call to 'eval' is not allowed",
       "Access to '__globals__' is not allowed"] := by
  constructor
  · intro tree timeout_seconds recLimit execTime h
    have hne : (visitModule tree).isEmpty = false := by
      cases hm : visitModule tree
      · exact absurd hm h
      · rfl
    simp [execute, validate_code, hne]
  · rfl

/-- Witness for C3 at the Scenario A program. -/
theorem validation_collects_all_diagnostics_witness :
    execute 5 10 ⟨.ok [.importS ["os"],
        .exprS (.callE (.nameE "eval") [.constE (.strV "1")]),
        .exprS (.attributeE (.nameE "x") "__globals__")]⟩ 0 =
      .ok ⟨false, none,
        some ("Code validation failed:\n"
          ++ "  - Import of 'os' is not allowed\n  - Call to 'eval' is not allowed\n"
          ++ "  - Access to '__globals__' is not allowed"), none⟩ := by
  have h := validation_collects_all_diagnostics.1
    [.importS ["os"], .exprS (.callE (.nameE "eval") [.constE (.strV "1")]),
     .exprS (.attributeE (.nameE "x") "__globals__")] 5 10 0 (by decide)
  exact h

/-- C4 (amended).  The `import` check keys on the top-level (first dotted
component) module name: every import whose top-level module is allow-listed
passes (in particular every allow-list member itself, each being dot-free),
and every import whose top-level module is not allow-listed yields exactly
one diagnostic naming the full dotted module. -/
theorem import_allowlist_checks_base_module (name : String) :
    (name ∈ ALLOWED_IMPORTS → visitModule [.importS [name]] = []) ∧
    (baseModule name ∉ ALLOWED_IMPORTS →
      visitModule [.importS [name]] = ["Import of '" ++ name ++ "' is not allowed"]) := by
  constructor
  · intro hmem
    have hbase : baseModule name = name := by fin_cases hmem <;> decide
    simp [visitModule, visitStmt, importErrors, hbase, hmem]
  · intro hnot
    simp [visitModule, visitStmt, importErrors, hnot]

/-- Counterexample to C4 as stated: `polars.internals` is a module name that
is not in the allow-list, yet `import polars.internals` produces no
diagnostic, because only the text before the first dot is checked. -/
theorem import_dotted_name_not_flagged :
    ("polars.internals" ∉ ALLOWED_IMPORTS) ∧
    visitModule [.importS ["polars.internals"]] = [] := by
  exact ⟨by decide, rfl⟩

/-- C5.  A source text that fails to parse makes validation raise a single
`CodeValidationError` diagnostic naming it a syntax error, and `execute`
returns failure carrying that diagnostic — for every recursion budget and
worker duration, i.e. the runner never reaches the execution step. -/
theorem syntax_error_fails_closed (msg : String) (timeout_seconds recLimit execTime : Nat) :
    validate_code ⟨.error msg⟩ =
      .error (.codeValidationError ("Syntax error in code: " ++ msg)) ∧
    execute timeout_seconds recLimit ⟨.error msg⟩ execTime =
      .ok ⟨false, none, some ("Syntax error in code: " ++ msg), none⟩ :=
  ⟨rfl, rfl⟩

/-- C10.  A from-import with no module part (a purely relative import such as
`from . import os`) is not checked against the allow-list at all — the
`if node.module:` guard skips it — so such a statement contributes no
diagnostic and the source passes validation unconditionally. -/
theorem relative_import_passes_validator (names : List String) :
    importFromErrors none = [] ∧
    visitStmt (.importF none names) = [] ∧
    validate_code ⟨.ok [.importF none names]⟩ = .ok [.importF none names] :=
  ⟨rfl, rfl, rfl⟩

/-- A parseable source with no diagnostics passes `validate_code`. -/
theorem validate_code_ok (tree : List PyStmt) (h : visitModule tree = []) :
    validate_code ⟨.ok tree⟩ = .ok tree := by
  unfold validate_code
  simp [h]

/-- The worker body never raises `FuturesTimeoutError` itself: its errors are
the candidate's own exceptions and `CodeExecutionError`. -/
theorem _execute_code_no_timeout_exc (recLimit : Nat) (tree : List PyStmt) :
    _execute_code recLimit tree ≠ .error .futuresTimeoutError := by
  intro h
  unfold _execute_code at h
  (repeat' split at h) <;> simp_all

/-- A `CodeExecutionError` raised by the worker body always carries
`traceback_str = None` (both raise sites pass no traceback). -/
theorem _execute_code_codeExecutionError_traceback (recLimit : Nat) (tree : List PyStmt)
    (m : String) (tb : Option String)
    (h : _execute_code recLimit tree = .error (.codeExecutionError m tb)) : tb = none := by
  unfold _execute_code at h
  (repeat' split at h) <;> simp_all

/-- Building the success result fails exactly on payloads outside
`dict | None`, raising the pydantic `ValidationError`. -/
theorem build_not_mapping (v : PyValue) (h : pydanticDataOk v = false) :
    CodeExecutionResult.build true (some v) none none = .error (.exc pydanticDataMessage) := by
  cases v <;> simp_all [pydanticDataOk, CodeExecutionResult.build]

/-- Master case analysis of `execute` on a validated source: timeout if the
worker overruns the budget, otherwise the worker's outcome routed through the
success-result construction and the two exception handlers. -/
theorem execute_validated (timeout_seconds recLimit : Nat) (tree : List PyStmt)
    (execTime : Nat) (h : visitModule tree = []) :
    execute timeout_seconds recLimit ⟨.ok tree⟩ execTime =
      if timeout_seconds < execTime then
        .ok ⟨false, none,
          some ("Code execution timed out after " ++ toString timeout_seconds ++ " seconds"),
          none⟩
      else
        match _execute_code recLimit tree with
        | .ok v =>
          match CodeExecutionResult.build true (some v) none none with
          | .ok r => .ok r
          | .error e =>
            .ok ⟨false, none, some (excMessage e), some (format_exc (excMessage e))⟩
        | .error (.codeExecutionError m tb) => .ok ⟨false, none, some m, tb⟩
        | .error e =>
          .ok ⟨false, none, some (excMessage e), some (format_exc (excMessage e))⟩ := by
  unfold execute
  rw [validate_code_ok tree h]
  dsimp only
  unfold executeAttempt futureResult
  by_cases ht : timeout_seconds < execTime
  · rw [if_pos ht, if_pos ht]
  · rw [if_neg ht, if_neg ht]
    cases hw : _execute_code recLimit tree with
    | ok v =>
      dsimp only
      cases hb : CodeExecutionResult.build true (some v) none none with
      | ok r => rfl
      | error e =>
        have he : ∃ m, e = PyExc.exc m := by
          unfold CodeExecutionResult.build at hb
          (repeat' split at hb) <;> simp_all
          exact ⟨_, hb.symm⟩
        obtain ⟨m, rfl⟩ := he
        rfl
    | error e =>
      cases e with
      | codeValidationError m => rfl
      | codeExecutionError m tb => rfl
      | futuresTimeoutError => exact absurd hw (_execute_code_no_timeout_exc recLimit tree)
      | exc m => rfl

/-- C2 (amended).  A validated candidate that defines a zero-argument callable
`run` whose call returns a JSON-serializable value succeeds — with `data`
equal to the returned value — only when that value is a mapping (or `None`,
reported as an absent `data`); for every other JSON-compatible return value
the pydantic construction of the success result raises, and `execute`
reports failure. -/
theorem execute_success_payload_must_be_mapping
    (timeout_seconds recLimit : Nat) (tree : List PyStmt) (execTime : Nat)
    (env : Env) (body : PyExpr) (v : PyValue)
    (hval : visitModule tree = [])
    (hexec : execStmts recLimit _create_execution_environment tree = .ok env)
    (hrun : envLookup env "run" = some (.funcV body))
    (hret : evalExpr recLimit env body = .ok v)
    (hser : jsonSerializable v = true)
    (ht : ¬ timeout_seconds < execTime) :
    execute timeout_seconds recLimit ⟨.ok tree⟩ execTime =
      match v with
      | .dictV kvs => .ok ⟨true, some (.dictV kvs), none, none⟩
      | .noneV => .ok ⟨true, none, none, none⟩
      | _ => .ok ⟨false, none, some pydanticDataMessage,
              some (format_exc pydanticDataMessage)⟩ := by
  have hw : _execute_code recLimit tree = .ok v := by
    unfold _execute_code
    rw [hexec]; dsimp only
    rw [hrun]; dsimp only
    rw [hret]; dsimp only
    rw [hser]; rfl
  rw [execute_validated _ _ _ _ hval, if_neg ht, hw]
  dsimp only
  cases v <;> rfl

/-- Witness for C2 at a candidate whose `run` returns the mapping
`{"v": 2}`. -/
theorem execute_success_payload_must_be_mapping_witness :
    execute 5 10 ⟨.ok [.functionDef "run" (.dictE [("v", .constE (.intV 2))])]⟩ 0 =
      .ok ⟨true, some (.dictV [("v", .intV 2)]), none, none⟩ :=
  execute_success_payload_must_be_mapping 5 10
    [.functionDef "run" (.dictE [("v", .constE (.intV 2))])] 0
    (("run", .funcV (.dictE [("v", .constE (.intV 2))])) :: _create_execution_environment)
    (.dictE [("v", .constE (.intV 2))]) (.dictV [("v", .intV 2)])
    rfl rfl rfl rfl rfl (by decide)

/-- Counterexample to C2 as stated: `run` returning the JSON-compatible list
`[1]` — not a mapping — makes `execute` fail (the worker itself succeeds and
the value serializes, but the result model's `data : dict | None` rejects
it), instead of returning `success=true` with that value. -/
theorem json_list_payload_yields_failure :
    _execute_code 10 [.functionDef "run" (.listE [.constE (.intV 1)])] =
      .ok (.listV [.intV 1]) ∧
    jsonSerializable (.listV [.intV 1]) = true ∧
    execute 5 10 ⟨.ok [.functionDef "run" (.listE [.constE (.intV 1)])]⟩ 0 =
      .ok ⟨false, none, some pydanticDataMessage, some (format_exc pydanticDataMessage)⟩ :=
  ⟨rfl, rfl, rfl⟩

/-- C6.  A validated candidate whose top-level execution leaves the
environment without a binding named `run`, or with `run` bound to a
non-callable value, makes `execute` fail with the message naming the `run()`
entry-point requirement (which indeed contains `"run()"`). -/
theorem missing_entry_point_fails
    (timeout_seconds recLimit : Nat) (tree : List PyStmt) (execTime : Nat) (env : Env)
    (hval : visitModule tree = [])
    (hexec : execStmts recLimit _create_execution_environment tree = .ok env)
    (hrun : runCallable env = false)
    (ht : ¬ timeout_seconds < execTime) :
    execute timeout_seconds recLimit ⟨.ok tree⟩ execTime =
      .ok ⟨false, none,
        some "Code must define a callable run() function with no arguments", none⟩ ∧
    ∃ p q, "Code must define a callable run() function with no arguments"
      = p ++ "run()" ++ q := by
  constructor
  · have hw : _execute_code recLimit tree =
        .error (.codeExecutionError
          "Code must define a callable run() function with no arguments" none) := by
      unfold _execute_code
      rw [hexec]; dsimp only
      unfold runCallable at hrun
      cases hl : envLookup env "run" with
      | none => rfl
      | some v => cases v <;> simp_all
    rw [execute_validated _ _ _ _ hval, if_neg ht, hw]
  · exact ⟨"Code must define a callable ", " function with no arguments", rfl⟩

/-- Witness for C6 at Scenario D, `execute("run = 1")`. -/
theorem missing_entry_point_fails_witness :
    execute 5 10 ⟨.ok [.assign "run" (.constE (.intV 1))]⟩ 0 =
      .ok ⟨false, none,
        some "Code must define a callable run() function with no arguments", none⟩ :=
  (missing_entry_point_fails 5 10 [.assign "run" (.constE (.intV 1))] 0
    (("run", .intV 1) :: _create_execution_environment)
    rfl rfl rfl (by decide)).1

/-- C7 (amended).  The `traceback` field is populated exactly on the generic
`except Exception` paths: unexpected runtime exceptions of the candidate
program, and the pydantic failure while constructing a success result from a
non-mapping payload.  It is absent on validation failures, on timeout
failures, and on the two explicit `CodeExecutionError` failures (missing
entry point, non-serializable result), whose `traceback_str` is always
`None`.  Scenario B (`run` evaluating `1/0`) fails with "division by zero"
and a traceback present. -/
theorem traceback_characterization :
    (∀ (timeout_seconds recLimit execTime : Nat) (c : Candidate) (m : String),
       validate_code c = .error (.codeValidationError m) →
       execute timeout_seconds recLimit c execTime = .ok ⟨false, none, some m, none⟩) ∧
    (∀ (timeout_seconds recLimit execTime : Nat) (tree : List PyStmt),
       visitModule tree = [] → timeout_seconds < execTime →
       execute timeout_seconds recLimit ⟨.ok tree⟩ execTime =
         .ok ⟨false, none,
           some ("Code execution timed out after " ++ toString timeout_seconds ++ " seconds"),
           none⟩) ∧
    (∀ (timeout_seconds recLimit execTime : Nat) (tree : List PyStmt) (m : String)
       (tb : Option String),
       visitModule tree = [] → ¬ timeout_seconds < execTime →
       _execute_code recLimit tree = .error (.codeExecutionError m tb) →
       tb = none ∧
       execute timeout_seconds recLimit ⟨.ok tree⟩ execTime = .ok ⟨false, none, some m, none⟩) ∧
    (∀ (timeout_seconds recLimit execTime : Nat) (tree : List PyStmt) (m : String),
       visitModule tree = [] → ¬ timeout_seconds < execTime →
       _execute_code recLimit tree = .error (.exc m) →
       execute timeout_seconds recLimit ⟨.ok tree⟩ execTime =
         .ok ⟨false, none, some m, some (format_exc m)⟩) ∧
    (∀ (timeout_seconds recLimit execTime : Nat) (tree : List PyStmt) (v : PyValue),
       visitModule tree = [] → ¬ timeout_seconds < execTime →
       _execute_code recLimit tree = .ok v → pydanticDataOk v = false →
       execute timeout_seconds recLimit ⟨.ok tree⟩ execTime =
         .ok ⟨false, none, some pydanticDataMessage, some (format_exc pydanticDataMessage)⟩) ∧
    execute 5 10
        ⟨.ok [.functionDef "run" (.dictE [("v", .divE (.constE (.intV 1)) (.constE (.intV 0)))])]⟩
        0 =
      .ok ⟨false, none, some "division by zero", some (format_exc "division by zero")⟩ := by
  refine ⟨?_, ?_, ?_, ?_, ?_, rfl⟩
  · intro timeout_seconds recLimit execTime c m hv
    unfold execute
    rw [hv]
  · intro timeout_seconds recLimit execTime tree hval ht
    rw [execute_validated _ _ _ _ hval, if_pos ht]
  · intro timeout_seconds recLimit execTime tree m tb hval ht hw
    have htb := _execute_code_codeExecutionError_traceback recLimit tree m tb hw
    subst htb
    exact ⟨rfl, by rw [execute_validated _ _ _ _ hval, if_neg ht, hw]⟩
  · intro timeout_seconds recLimit execTime tree m hval ht hw
    rw [execute_validated _ _ _ _ hval, if_neg ht, hw]
    rfl
  · intro timeout_seconds recLimit execTime tree v hval ht hw hdata
    rw [execute_validated _ _ _ _ hval, if_neg ht, hw]
    dsimp only
    rw [build_not_mapping v hdata]
    rfl

/-- Counterexample to C7 as stated: a candidate whose execution raises no
exception at all (`run` returns the number `7`) still produces a failure with
`traceback` present — the traceback comes from the result-construction
failure, not from a runtime exception of the candidate program. -/
theorem traceback_present_without_candidate_exception :
    _execute_code 10 [.functionDef "run" (.constE (.intV 7))] = .ok (.intV 7) ∧
    execute 5 10 ⟨.ok [.functionDef "run" (.constE (.intV 7))]⟩ 0 =
      .ok ⟨false, none, some pydanticDataMessage, some (format_exc pydanticDataMessage)⟩ :=
  ⟨rfl, rfl⟩

/-- C8.  When the background worker does not complete within the configured
timeout, `execute` returns a failure whose error message states the timeout
duration. -/
theorem timeout_failure_states_duration (timeout_seconds recLimit : Nat)
    (tree : List PyStmt) (execTime : Nat)
    (hval : visitModule tree = []) (ht : timeout_seconds < execTime) :
    execute timeout_seconds recLimit ⟨.ok tree⟩ execTime =
      .ok ⟨false, none,
        some ("Code execution timed out after " ++ toString timeout_seconds ++ " seconds"),
        none⟩ := by
  rw [execute_validated _ _ _ _ hval, if_pos ht]

/-- Witness for C8: a 2-second timeout against a 10-second worker. -/
theorem timeout_failure_states_duration_witness :
    execute 2 10 ⟨.ok [.functionDef "run" (.constE .noneV)]⟩ 10 =
      .ok ⟨false, none, some "Code execution timed out after 2 seconds", none⟩ :=
  timeout_failure_states_duration 2 10 [.functionDef "run" (.constE .noneV)] 10
    rfl (by decide)

/-- C9 (amended).  On timeout the worker is indeed neither cancelled nor
killed and `execute` reports the timeout failure; but the call does not
return as soon as it stops waiting: leaving the `with` block runs
`ThreadPoolExecutor.shutdown(wait=True)`, so the timed-out call returns only
once the abandoned worker has finished running (`executeReturnTime` equals
the worker's full duration, not the timeout). -/
theorem timeout_reports_failure_but_waits_for_worker (timeout_seconds recLimit : Nat)
    (tree : List PyStmt) (execTime : Nat)
    (hval : visitModule tree = []) (ht : timeout_seconds < execTime) :
    execute timeout_seconds recLimit ⟨.ok tree⟩ execTime =
      .ok ⟨false, none,
        some ("Code execution timed out after " ++ toString timeout_seconds ++ " seconds"),
        none⟩ ∧
    executeReturnTime ⟨.ok tree⟩ execTime = execTime := by
  constructor
  · rw [execute_validated _ _ _ _ hval, if_pos ht]
  · unfold executeReturnTime
    rw [validate_code_ok tree hval]

/-- Witness for C9's amended statement. -/
theorem timeout_reports_failure_but_waits_for_worker_witness :
    execute 3 10 ⟨.ok [.functionDef "run" (.constE (.boolV true))]⟩ 9 =
      .ok ⟨false, none, some "Code execution timed out after 3 seconds", none⟩ ∧
    executeReturnTime ⟨.ok [.functionDef "run" (.constE (.boolV true))]⟩ 9 = 9 :=
  timeout_reports_failure_but_waits_for_worker 3 10
    [.functionDef "run" (.constE (.boolV true))] 9 rfl (by decide)

/-- Counterexample to C9 as stated: with a 2-second timeout and a worker
taking 10 seconds, the timed-out call reports the timeout failure but returns
only at second 10, when the abandoned worker finishes — not before the worker
is done, as the claim's "without waiting" asserts. -/
theorem timed_out_call_waits_for_worker :
    execute 2 10 ⟨.ok [.exprS (.constE .noneV), .functionDef "run" (.constE .noneV)]⟩ 10 =
      .ok ⟨false, none, some "Code execution timed out after 2 seconds", none⟩ ∧
    executeReturnTime ⟨.ok [.exprS (.constE .noneV), .functionDef "run" (.constE .noneV)]⟩ 10
      = 10 ∧
    ¬ executeReturnTime ⟨.ok [.exprS (.constE .noneV), .functionDef "run" (.constE .noneV)]⟩ 10
      < 10 :=
  ⟨rfl, rfl, by decide⟩

end DeepShot
